import Mathlib

/-!
Verification development for the AI-Medical-Dashboard conversational
orchestration pipeline (`backend/langgraph/agent.py`, `backend/main.py`).

The Python code is shallowly embedded: each LangGraph node becomes a Lean
function on an explicit `AgentState`, the SQLite engine and the language
model are abstract oracles (the engine threads an abstract store state of
type `σ`, so cross-statement effects are representable), and the graph
wiring (`workflow.add_edge` / conditional edges) becomes the explicit
sequencing in `runWorkflow`, which also records which stages ran, the
audit-log contents, and the WebSocket broadcasts.

Python strings are modelled as Lean `String`s, but every text operation the
code performs (`upper`, `lower`, `strip`, `in`, `startswith`, `endswith`,
`split`, `replace`) is implemented here over the underlying character list,
so that all definitions are executable by the kernel on concrete inputs.
-/

set_option autoImplicit false

/-! ## Character-list string operations (Python `str` methods) -/

/-- Python `str.upper` on an ASCII character. -/
def upChar (c : Char) : Char :=
  if 97 ≤ c.toNat ∧ c.toNat ≤ 122 then Char.ofNat (c.toNat - 32) else c

/-- Python `str.lower` on an ASCII character. -/
def lowChar (c : Char) : Char :=
  if 65 ≤ c.toNat ∧ c.toNat ≤ 90 then Char.ofNat (c.toNat + 32) else c

/-- Python `s.upper()`. -/
def upStr (s : String) : String := ⟨s.data.map upChar⟩

/-- Python `s.lower()`. -/
def lowStr (s : String) : String := ⟨s.data.map lowChar⟩

/-- Does `l` start with `pat`? -/
def listHasPre (pat l : List Char) : Bool :=
  match pat, l with
  | [], _ => true
  | _ :: _, [] => false
  | p :: ps, c :: cs => p == c && listHasPre ps cs

/-- Does `l` contain `pat` as a contiguous sublist? -/
def listHasSub (pat l : List Char) : Bool :=
  match l with
  | [] => pat.isEmpty
  | _ :: cs => listHasPre pat l || listHasSub pat cs

/-- Python `pat in s` (substring containment, for nonempty `pat`). -/
def hasSubstr (s pat : String) : Bool := listHasSub pat.data s.data

/-- Python `s.startswith(pat)`. -/
def strStarts (s pat : String) : Bool := listHasPre pat.data s.data

/-- Whitespace as stripped by Python `str.strip` (the forms that occur here). -/
def isWs (c : Char) : Bool := c == ' ' || c == '\t' || c == '\n' || c == '\r'

/-- Python `s.strip()`. -/
def trimStr (s : String) : String :=
  ⟨((s.data.dropWhile isWs).reverse.dropWhile isWs).reverse⟩

/-- Helper for `splitLines`: accumulates the current line (reversed). -/
def splitLinesAux : List Char → List Char → List String
  | [], acc => [⟨acc.reverse⟩]
  | c :: cs, acc =>
    if c == '\n' then ⟨acc.reverse⟩ :: splitLinesAux cs [] else splitLinesAux cs (c :: acc)

/-- Python `s.split("\n")`. -/
def splitLines (s : String) : List String := splitLinesAux s.data []

/-- Python `"\n" in s`. -/
def hasNewline (s : String) : Bool := s.data.contains '\n'

/-- Python `";" in s`. -/
def hasSemi (s : String) : Bool := s.data.contains ';'

/-- Characters before the first `;` — Python `s.split(";")[0]`. -/
def beforeSemiAux : List Char → List Char
  | [] => []
  | c :: cs => if c == ';' then [] else c :: beforeSemiAux cs

/-- Python `s.split(";")[0]`. -/
def beforeSemi (s : String) : String := ⟨beforeSemiAux s.data⟩

/-- Python `s.endswith(";")`. -/
def endsSemi (s : String) : Bool := s.data.getLast? == some ';'

/-- Python `s[:-1]`. -/
def dropLastStr (s : String) : String := ⟨s.data.dropLast⟩

/-- Python `s[:n]`. -/
def takeStr (n : Nat) (s : String) : String := ⟨s.data.take n⟩

/-- Remove every occurrence of the pattern `p :: ps`, left to right
(fuel-based so the kernel can evaluate it; the fuel starts at the list
length, which recursion never exhausts). -/
def removePatGo (p : Char) (ps : List Char) : Nat → List Char → List Char
  | _, [] => []
  | 0, l => l
  | fuel + 1, c :: cs =>
    if listHasPre (p :: ps) (c :: cs) then removePatGo p ps fuel (cs.drop ps.length)
    else c :: removePatGo p ps fuel cs

/-- Python `s.replace(pat, "")` (removal of every occurrence). -/
def removeSub (s pat : String) : String :=
  match pat.data with
  | [] => s
  | p :: ps => ⟨removePatGo p ps s.data.length s.data⟩

/-- Python `sep.join(xs)`. -/
def joinWith (sep : String) : List String → String
  | [] => ""
  | [x] => x
  | x :: y :: xs => x ++ sep ++ joinWith sep (y :: xs)

/-! ## Data model (`AgentState`, audit log, payloads) -/

/-- One row of a query result: an ordered field-to-value mapping, as
produced by `dict(row)` in `execute_sql`. -/
abbrev RowMap : Type := List (String × String)

/-- The value held by `AgentState.execution_result`. In the source this is
a Python string; the only strings ever stored are either the JSON dump of a
nonconstructed row list (read path) or a plain English message (write path,
no-effect path, bulk path). The constructor records which of the two it is,
which is exactly what `json.loads` succeeding or failing distinguishes in
`generate_response`. -/
inductive ExecResult
  | rowsJson (rows : List RowMap)
  | message (s : String)
deriving DecidableEq

/-- One row of the `audit_log` table as written by `execute_sql`
(`operation`, `new_value`, `user`; the `time` column is filled by the
database default and carries no information decided by the core). -/
structure AuditRecord where
  operation : String
  new_value : String
  user : String
deriving DecidableEq

/-- The LangGraph `AgentState` fields the pipeline reads or writes
(`messages`/`chat_history` feed only the prompts, which are behind the
completion oracle; `row_id`/`update_data` are never written by any node). -/
structure AgentState where
  intent : Option String
  sql_query : Option String
  execution_result : Option ExecResult
  error : Option String
  table_changed : Option String
  needs_clarification : Bool
  clarification_question : String
deriving DecidableEq

/-- The discriminated response payload built by `generate_response`
(the JSON object put into the final message). -/
inductive Payload
  | clarification (message : String)
  | chatText (message : String)
  | errorReply (message suggestion : String)
  | tableResult (table_type message : String) (rows : List RowMap) (count : Nat)
  | writeSuccess (action message : String)
  | textReply (message : String)
deriving DecidableEq

/-- Stages of the workflow graph (`workflow.add_node` names). -/
inductive Stage
  | analyze
  | generateSql
  | validate
  | executeStage
  | bulkStage
  | emitStage
  | respondStage
deriving DecidableEq

/-- Outcome of handing one SQL string to the SQLite engine: either a
successful execution (`cursor.rowcount`, `cursor.lastrowid`, fetched rows)
or a raised exception carrying `str(e)`. -/
inductive EngineOutcome
  | ok (rowcount : Nat) (lastrowid : Nat) (rows : List RowMap)
  | raise (msg : String)

/-- Result of the completion call plus JSON decoding in `analyze_request`:
the model text either fails `json.loads` (after the markdown-fence cleanup),
or decodes to a non-object (list/string/number — `analysis.get` then raises
`AttributeError`), or decodes to an object whose `intent` field is the given
optional string. -/
inductive ParseOutcome
  | decodeErr
  | nonObject
  | jsonObject (intentField : Option String)

/-- The state update returned by `analyze_request`. -/
structure AnalyzeOut where
  intent : String
  needs_clarification : Bool
deriving DecidableEq

/-! ## Intent Analyzer (`analyze_request`) -/

/-- The deterministic keyword fallback on `json.JSONDecodeError`
(agent.py line 259). -/
def fallbackIntent (msg : String) : String :=
  if hasSubstr (lowStr msg) "show" || hasSubstr (lowStr msg) "list" ||
      hasSubstr (lowStr msg) "get" || hasSubstr (lowStr msg) "find" ||
      hasSubstr (lowStr msg) "search" then "QUERY" else "UPDATE"

/-- The analyzer node: `Except.error` models an uncaught Python exception
(`analysis.get` on a decoded non-dict raises `AttributeError`, which the
`except json.JSONDecodeError` handler does not catch); `analysis.get
("intent", "QUERY")` defaults a missing field to `"QUERY"`. -/
def analyze_request (po : ParseOutcome) (msg : String) : Except Unit AnalyzeOut :=
  match po with
  | .decodeErr => .ok ⟨fallbackIntent msg, false⟩
  | .nonObject => .error ()
  | .jsonObject it => .ok ⟨it.getD "QUERY", false⟩

/-! ## Statement Generator (`generate_smart_sql`) -/

/-- Python `response.content.strip()` followed by
`.replace("```sql", "").replace("```", "").strip()`. -/
def cleanLLM (raw : String) : String :=
  trimStr (removeSub (removeSub (trimStr raw) "```sql") "```")

/-- Does the line's leading token look like an allowed statement keyword
(`line.upper().startswith(("SELECT", "INSERT", "UPDATE", "DELETE"))`)? -/
def startsSqlKw (l : String) : Bool :=
  strStarts (upStr l) "SELECT" || strStarts (upStr l) "INSERT" ||
    strStarts (upStr l) "UPDATE" || strStarts (upStr l) "DELETE"

/-- The mandatory post-processing in `generate_smart_sql`: strip fences,
keep the first SQL-looking line when multi-line (keeping the whole text
when no line matches), then truncate at the first semicolon. -/
def postprocessSql (raw : String) : String :=
  let s1 := cleanLLM raw
  let s2 :=
    if hasNewline s1 then
      match (splitLines s1).find? (fun l => startsSqlKw (trimStr l)) with
      | some l => trimStr l
      | none => s1
    else s1
  if hasSemi s2 then trimStr (beforeSemi s2) else s2

/-- The generator node: skipped for CHAT intent, otherwise stores the
post-processed statement. -/
def generate_smart_sql (genRaw : String) (st : AgentState) : AgentState :=
  if st.intent = some "CHAT" then st
  else { st with sql_query := some (postprocessSql genRaw) }

/-! ## Statement Validator (`validate_operation`) -/

/-- The validator node. `if not sql_query: return {}` passes `None` and the
empty string through untouched; otherwise the keyword scan runs on the
uppercased text. -/
def validate_operation (st : AgentState) : AgentState :=
  match st.sql_query with
  | none => st
  | some q =>
    if q = "" then st
    else if hasSubstr (upStr q) "DROP" then
      { st with error := some "DROP operations are not allowed for safety reasons." }
    else if hasSubstr (upStr q) "TRUNCATE" then
      { st with error := some "TRUNCATE operations are not allowed for safety reasons." }
    else if hasSubstr (upStr q) "DELETE" && !hasSubstr (upStr q) "WHERE" then
      { st with
          error :=
            some "DELETE without WHERE clause is not allowed. Please specify which records to delete." }
    else if hasSubstr (upStr q) "UPDATE" && !hasSubstr (upStr q) "WHERE" then
      { st with
          error :=
            some "UPDATE without WHERE clause would affect all records. Please specify which records to update." }
    else st

/-! ## Statement Executor (`execute_sql`) -/

/-- Python `any(op in sql_query.upper() for op in ["UPDATE", "INSERT", "DELETE"])`. -/
def isWriteQuery (q : String) : Bool :=
  hasSubstr (upStr q) "UPDATE" || hasSubstr (upStr q) "INSERT" || hasSubstr (upStr q) "DELETE"

/-- The affected-table detection by keyword containment on the lowercased
statement (the same `if`/`elif` chain is used in `execute_sql` and in
`generate_bulk_insert`). -/
def detectTable (q : String) : Option String :=
  if hasSubstr (lowStr q) "patients" then some "patients"
  else if hasSubstr (lowStr q) "visits" then some "visits"
  else if hasSubstr (lowStr q) "prescriptions" then some "prescriptions"
  else if hasSubstr (lowStr q) "billing" then some "billing"
  else none

/-- The user-safe message for a UNIQUE-constraint violation. -/
def msgUnique : String :=
  "A record with this information already exists. Please use different values or update the existing record."

/-- The user-safe message for a FOREIGN-KEY violation. -/
def msgFk : String :=
  "Cannot complete this operation because it references a record that doesn\x27t exist."

/-- The user-safe message for an unknown column. -/
def msgColumn : String :=
  "Invalid column reference in the query. Please check your field names."

/-- The user-safe message for a multi-statement attempt. -/
def msgMulti : String :=
  "I can only run one database operation at a time. Please break this into separate requests."

/-- The `except Exception` branch of `execute_sql`: map `str(e)` to a
user-safe message by substring tests, in source order. -/
def mapExecError (msg : String) : String :=
  if hasSubstr msg "UNIQUE constraint" then msgUnique
  else if hasSubstr msg "FOREIGN KEY constraint" then msgFk
  else if hasSubstr msg "no such column" then msgColumn
  else if hasSubstr (lowStr msg) "only execute one statement" then msgMulti
  else msg

/-- Result of the executor node: the state update, the audit log after the
node, the store state after the node, and whether the connection was closed
on the taken exit path. -/
structure ExecOut (σ : Type) where
  state : AgentState
  audit : List AuditRecord
  db : σ
  connReleased : Bool

/-- The executor node. The engine oracle `engine : σ → String →
EngineOutcome × σ` stands for `cursor.execute` + `conn.commit` on the
abstract store; the audit-log `INSERT` issued by the node itself is modelled
as the explicit append. On the paths that never reach `get_db_connection`
(`None`/empty statement) the connection is trivially not left open. -/
def execute_sql {σ : Type} (engine : σ → String → EngineOutcome × σ) (db : σ)
    (audit : List AuditRecord) (st : AgentState) : ExecOut σ :=
  match st.sql_query with
  | none => ⟨st, audit, db, true⟩
  | some q =>
    if q = "" then ⟨st, audit, db, true⟩
    else
      match engine db q with
      | (.raise msg, db2) => ⟨{ st with error := some (mapExecError msg) }, audit, db2, true⟩
      | (.ok rc lastId rows, db2) =>
        if isWriteQuery q then
          let res : String :=
            if rc = 0 then "No records were affected. The specified record may not exist."
            else if hasSubstr (upStr q) "INSERT" then
              "Successfully created new record (ID: " ++ toString lastId ++ ")."
            else if hasSubstr (upStr q) "UPDATE" then
              "Successfully updated " ++ toString rc ++ " record(s)."
            else if hasSubstr (upStr q) "DELETE" then
              "Successfully deleted " ++ toString rc ++ " record(s)."
            else ""
          ⟨{ st with execution_result := some (.message res), table_changed := detectTable q },
            audit ++ [⟨"SQL Execution", q, "chatbot"⟩], db2, true⟩
        else
          let res : ExecResult :=
            if rows.isEmpty then .message "No matching records found." else .rowsJson rows
          ⟨{ st with execution_result := some res, table_changed := none }, audit, db2, true⟩

/-! ## Change Notifier (`emit_event`) -/

/-- The tables broadcast by `emit_event`: one `refresh` message when
`table_changed` is truthy (set and nonempty), none otherwise. -/
def emit_event (st : AgentState) : List String :=
  match st.table_changed with
  | some t => if t = "" then [] else [t]
  | none => []

/-! ## Response Formatter (`generate_response`) -/

/-- Python truthiness of the stored `execution_result` string
(`if result:`). -/
def isEmptyResult : ExecResult → Bool
  | .message s => s = ""
  | .rowsJson _ => false

/-- Is `field` a key of the row (`"diagnosis" in data[0]`)? -/
def hasField (row : RowMap) (field : String) : Bool :=
  row.any (fun p => p.1 == field)

/-- The entity-type tag derived from field presence on the first row. -/
def detectTableType (row : RowMap) : String :=
  if hasField row "diagnosis" then "visits"
  else if hasField row "medication" then "prescriptions"
  else if hasField row "amount" then "billing"
  else if hasField row "name" && hasField row "age" then "patients"
  else if hasField row "operation" then "audit"
  else "data"

/-- Python plural suffix `'s' if count != 1 else ''`. -/
def pluralS (count : Nat) : String := if count ≠ 1 then "s" else ""

/-- The deterministic summary templates of `generate_response`. -/
def summaryFor (tt : String) (count : Nat) : String :=
  if tt = "patients" then "Found " ++ toString count ++ " patient" ++ pluralS count ++ "."
  else if tt = "visits" then "Found " ++ toString count ++ " visit" ++ pluralS count ++ "."
  else if tt = "prescriptions" then
    "Found " ++ toString count ++ " prescription" ++ pluralS count ++ "."
  else if tt = "billing" then
    "Found " ++ toString count ++ " billing record" ++ pluralS count ++ "."
  else if tt = "audit" then
    "Found " ++ toString count ++ " audit log entr" ++
      (if count ≠ 1 then "ies" else "y") ++ "."
  else if tt = "data" then "Found " ++ toString count ++ " record" ++ pluralS count ++ "."
  else toString count ++ " record" ++ pluralS count ++ " found."

/-- Rendering of a row list back to the JSON text Python holds (used only
where `generate_response` falls through with the raw string). -/
def renderRows (rows : List RowMap) : String :=
  "[" ++
    joinWith ", "
      (rows.map (fun r =>
        "\x7b" ++
          joinWith ", " (r.map (fun p => "\x22" ++ p.1 ++ "\x22: \x22" ++ p.2 ++ "\x22")) ++
          "\x7d")) ++
    "]"

/-- The fallback message of `generate_response` when no error and no
(truthy) execution result is present. -/
def doneMsg : String :=
  "I\x27ve completed your request. Is there anything else you\x27d like me to help with?"

/-- The result/default tail of `generate_response` (the code reached when
the `error` field is not truthy): the row-list, write-message, plain-text
and fallback payloads. -/
def respondResult (st : AgentState) : Payload :=
  match st.execution_result with
  | some r =>
    if isEmptyResult r then .textReply doneMsg
    else
      match r with
      | .rowsJson rows =>
        match rows with
        | row0 :: _ =>
          let tt := detectTableType row0
          .tableResult tt (summaryFor tt rows.length) rows rows.length
        | [] => .textReply (renderRows [])
      | .message s =>
        if hasSubstr s "Successfully" || hasSubstr (lowStr s) "created" ||
            hasSubstr (lowStr s) "updated" || hasSubstr (lowStr s) "deleted" then
          let action :=
            if hasSubstr (lowStr s) "updated" then "updated"
            else if hasSubstr (lowStr s) "deleted" then "deleted"
            else "created"
          .writeSuccess action s
        else .textReply s
  | none => .textReply doneMsg

/-- The response node. `chatReply` stands for the completion call made on
the CHAT branch. The branch order mirrors the source: clarification, CHAT,
error (Python `if error:` — an empty string is falsy and falls through),
result, fallback. -/
def generate_response (chatReply : String) (st : AgentState) : Payload :=
  if st.needs_clarification then .clarification st.clarification_question
  else if st.intent = some "CHAT" then .chatText chatReply
  else
    match st.error with
    | some e =>
      if e = "" then respondResult st
      else .errorReply e "Please try rephrasing your request or provide more specific details."
    | none => respondResult st

/-! ## Bulk Insert path (`generate_bulk_insert`) -/

/-- Python `if line and line.upper().startswith("INSERT")` on an
already-stripped line. -/
def bulkExecutable (l : String) : Bool := (l != "") && strStarts (upStr l) "INSERT"

/-- Python `line[:-1] if line.endswith(";") else line`. -/
def stripSemi (l : String) : String := if endsSemi l then dropLastStr l else l

/-- Loop accumulators of `generate_bulk_insert`. `executedOk` records, in
order, each statement handed to the engine together with whether it
succeeded (ghost instrumentation for the theorems; `tables` is the Python
set `tables_affected`, represented as a duplicate-free list). -/
structure BulkAgg where
  executedOk : List (String × Bool)
  successCount : Nat
  errors : List String
  tables : List String
deriving DecidableEq

/-- Python `set.add` on the optional detected table. -/
def addTable (t : Option String) (ts : List String) : List String :=
  match t with
  | none => ts
  | some t => if t ∈ ts then ts else t :: ts

/-- The bulk execution loop: each line is stripped, non-INSERT lines are
skipped silently, INSERT lines are executed independently inside their own
`try`, threading the store state. -/
def bulkRun {σ : Type} (engine : σ → String → EngineOutcome × σ) (db : σ) :
    List String → BulkAgg × σ
  | [] => (⟨[], 0, [], []⟩, db)
  | line :: rest =>
    let l := trimStr line
    if bulkExecutable l then
      let stmt := stripSemi l
      match engine db stmt with
      | (.ok _ _ _, db2) =>
        let (r, db3) := bulkRun engine db2 rest
        (⟨(stmt, true) :: r.executedOk, r.successCount + 1, r.errors,
            addTable (detectTable stmt) r.tables⟩, db3)
      | (.raise m, db2) =>
        let (r, db3) := bulkRun engine db2 rest
        (⟨(stmt, false) :: r.executedOk, r.successCount,
            (takeStr 50 stmt ++ "... : " ++ m) :: r.errors, r.tables⟩, db3)
    else bulkRun engine db rest

/-- The bulk node: clean the model output, run every line, commit, and
report one combined outcome (an error only when nothing succeeded). It
never touches the audit log. -/
def generate_bulk_insert {σ : Type} (engine : σ → String → EngineOutcome × σ) (db : σ)
    (bulkRaw : String) (st : AgentState) : AgentState × BulkAgg × σ :=
  let (r, db2) := bulkRun engine db (splitLines (cleanLLM bulkRaw))
  if r.successCount > 0 then
    let tableList := if r.tables.isEmpty then "database" else joinWith ", " r.tables
    let base :=
      "Successfully created " ++ toString r.successCount ++ " new record(s) in " ++
        tableList ++ "."
    let msg :=
      if r.errors.isEmpty then base
      else base ++ " (" ++ toString r.errors.length ++ " statements failed)"
    let tc := if r.tables.length = 1 then r.tables.headD "patients" else "patients"
    ({ st with execution_result := some (.message msg), table_changed := some tc }, r, db2)
  else
    let emsg := "Failed to insert data. Errors: " ++ joinWith "; " (r.errors.take 3)
    ({ st with error := some emsg }, r, db2)

/-! ## Orchestrator (graph wiring and routing) -/

/-- The conditional edge after `analyze`. -/
def route_after_analysis (st : AgentState) : String :=
  if st.needs_clarification then "respond"
  else if st.intent = some "CHAT" then "respond"
  else if st.intent = some "BULK_INSERT" then "bulk_insert"
  else "generate_sql"

/-- The conditional edge after `validate` (Python `if state.get("error")`;
at this point the error field is either unset or one of the validator's
fixed nonempty messages, so truthiness coincides with `isSome`). -/
def route_after_validation (st : AgentState) : String :=
  if st.error.isSome then "respond" else "execute_sql"

/-- The state as it leaves `analyze` (all other fields start unset). -/
def initState (ar : AnalyzeOut) : AgentState :=
  { intent := some ar.intent, sql_query := none, execution_result := none,
    error := none, table_changed := none,
    needs_clarification := ar.needs_clarification, clarification_question := "" }

/-- The oracles one request consumes: the analyzer completion (already
JSON-decoded), the raw generator completion, the raw bulk completion, the
store engine, and the CHAT-branch completion. -/
structure Oracles (σ : Type) where
  analyzeOut : ParseOutcome
  genRaw : String
  bulkRaw : String
  engine : σ → String → EngineOutcome × σ
  chatReply : String

/-- Everything one workflow pass produced: terminal state, audit log, store
state, broadcast tables, the stages that ran (in order), the reply payload,
and the bulk-loop record when the bulk path ran. -/
structure RunOut (σ : Type) where
  state : AgentState
  audit : List AuditRecord
  db : σ
  broadcasts : List String
  trace : List Stage
  payload : Payload
  bulk : Option BulkAgg

/-- One workflow pass after a successful `analyze`, following the compiled
graph: `analyze → {respond, bulk_insert, generate_sql}`;
`generate_sql → validate → {respond, execute_sql}`;
`execute_sql → emit_event → respond`; `bulk_insert → emit_event → respond`. -/
def runFrom {σ : Type} (o : Oracles σ) (db : σ) (audit0 : List AuditRecord)
    (ar : AnalyzeOut) : RunOut σ :=
  let st := initState ar
  if route_after_analysis st = "respond" then
    ⟨st, audit0, db, [], [.analyze, .respondStage], generate_response o.chatReply st, none⟩
  else if route_after_analysis st = "bulk_insert" then
    let (st2, agg, db2) := generate_bulk_insert o.engine db o.bulkRaw st
    ⟨st2, audit0, db2, emit_event st2, [.analyze, .bulkStage, .emitStage, .respondStage],
      generate_response o.chatReply st2, some agg⟩
  else
    let st2 := validate_operation (generate_smart_sql o.genRaw st)
    if route_after_validation st2 = "respond" then
      ⟨st2, audit0, db, [], [.analyze, .generateSql, .validate, .respondStage],
        generate_response o.chatReply st2, none⟩
    else
      let e := execute_sql o.engine db audit0 st2
      ⟨e.state, e.audit, e.db, emit_event e.state,
        [.analyze, .generateSql, .validate, .executeStage, .emitStage, .respondStage],
        generate_response o.chatReply e.state, none⟩

/-- One full workflow pass; `Except.error` is an uncaught exception escaping
the graph (the analyzer is the only node that can raise in this model). -/
def runWorkflow {σ : Type} (o : Oracles σ) (msg : String) (db : σ)
    (audit0 : List AuditRecord) : Except Unit (RunOut σ) :=
  match analyze_request o.analyzeOut msg with
  | .error e => .error e
  | .ok ar => .ok (runFrom o db audit0 ar)

/-! ## Session store (`main.py` `chat_endpoint`) -/

/-- One stored message (`HumanMessage`/`AIMessage`). -/
structure Turn where
  role : String
  content : String
deriving DecidableEq

/-- The history update at the end of `chat_endpoint`: append the user and
assistant turns, then keep only the last 20 messages when the bound is
exceeded (`chat_history[-20:]`). -/
def chatAppend (h : List Turn) (u a : Turn) : List Turn :=
  let h2 := h ++ [u, a]
  if h2.length > 20 then h2.drop (h2.length - 20) else h2

/-! ## Helper lemmas -/

/-- Every successful analyzer outcome carries `needs_clarification = false`. -/
theorem analyze_ok_needs (po : ParseOutcome) (msg : String) (ar : AnalyzeOut)
    (h : analyze_request po msg = .ok ar) : ar.needs_clarification = false := by
  cases po <;> simp [analyze_request] at h <;> simp [← h]

/-- The validator only ever touches the `error` field. -/
theorem validate_fields (st : AgentState) :
    (validate_operation st).sql_query = st.sql_query ∧
    (validate_operation st).intent = st.intent ∧
    (validate_operation st).needs_clarification = st.needs_clarification ∧
    (validate_operation st).clarification_question = st.clarification_question ∧
    (validate_operation st).execution_result = st.execution_result ∧
    (validate_operation st).table_changed = st.table_changed := by
  unfold validate_operation
  cases h : st.sql_query <;> simp [h]
  split_ifs <;> simp [h]

/-- On the non-CHAT, non-BULK_INSERT route, `runFrom` takes the
`generate_sql → validate → {respond, execute_sql}` path. -/
theorem runFrom_sql {σ : Type} (o : Oracles σ) (db : σ) (audit0 : List AuditRecord)
    (ar : AnalyzeOut) (hn : ar.needs_clarification = false)
    (hc : ar.intent ≠ "CHAT") (hb : ar.intent ≠ "BULK_INSERT") :
    runFrom o db audit0 ar =
      (let st2 := validate_operation (generate_smart_sql o.genRaw (initState ar))
      if route_after_validation st2 = "respond" then
        ⟨st2, audit0, db, [], [.analyze, .generateSql, .validate, .respondStage],
          generate_response o.chatReply st2, none⟩
      else
        let e := execute_sql o.engine db audit0 st2
        ⟨e.state, e.audit, e.db, emit_event e.state,
          [.analyze, .generateSql, .validate, .executeStage, .emitStage, .respondStage],
          generate_response o.chatReply e.state, none⟩) := by
  unfold runFrom route_after_analysis initState
  simp [hn, hc, hb]

/-- On the BULK_INSERT route, `runFrom` takes the
`bulk_insert → emit_event → respond` path, leaving the audit log alone. -/
theorem runFrom_bulk {σ : Type} (o : Oracles σ) (db : σ) (audit0 : List AuditRecord)
    (ar : AnalyzeOut) (hn : ar.needs_clarification = false)
    (hbi : ar.intent = "BULK_INSERT") :
    runFrom o db audit0 ar =
      (let r := generate_bulk_insert o.engine db o.bulkRaw (initState ar)
      ⟨r.1, audit0, r.2.2, emit_event r.1, [.analyze, .bulkStage, .emitStage, .respondStage],
        generate_response o.chatReply r.1, some r.2.1⟩) := by
  unfold runFrom route_after_analysis initState
  simp [hn, hbi]

/-- An empty statement contains no keyword. -/
theorem hasSubstr_empty (pat : String) (c : Char) (cs : List Char) (hp : pat.data = c :: cs) :
    hasSubstr (upStr "") pat = false := by
  simp [hasSubstr, upStr, listHasSub, hp, List.isEmpty]

/-- A statement whose uppercase text contains DROP or TRUNCATE is rejected
by the validator. -/
theorem validate_reject_destructive (st : AgentState) (q : String)
    (hq : st.sql_query = some q)
    (hd : hasSubstr (upStr q) "DROP" = true ∨ hasSubstr (upStr q) "TRUNCATE" = true) :
    (validate_operation st).error.isSome := by
  have hne : ¬(q = "") := by
    intro h
    subst h
    rcases hd with h | h <;> rw [hasSubstr_empty _ _ _ rfl] at h <;> exact Bool.false_ne_true h
  unfold validate_operation
  rw [hq]
  rcases hd with h | h
  · simp [hne, h]
  · by_cases hdrop : hasSubstr (upStr q) "DROP" = true
    · simp [hne, hdrop]
    · simp [hne, hdrop, h]

/-- C3: a statement containing UPDATE or DELETE (case-insensitively) without
WHERE is rejected; a statement with no destructive keyword that is not an
unqualified UPDATE/DELETE is accepted — the validator node returns the state
unchanged, setting no error. -/
theorem c3_validator_unqualified (st : AgentState) (q : String)
    (hq : st.sql_query = some q) :
    (((hasSubstr (upStr q) "UPDATE" = true ∨ hasSubstr (upStr q) "DELETE" = true) →
        hasSubstr (upStr q) "WHERE" = false →
      (validate_operation st).error.isSome)) ∧
    (hasSubstr (upStr q) "DROP" = false → hasSubstr (upStr q) "TRUNCATE" = false →
      (¬((hasSubstr (upStr q) "UPDATE" = true ∨ hasSubstr (upStr q) "DELETE" = true) ∧
          hasSubstr (upStr q) "WHERE" = false)) →
      validate_operation st = st) := by
  constructor
  · intro hud hw
    have hne : ¬(q = "") := by
      intro h
      subst h
      rcases hud with h | h <;> rw [hasSubstr_empty _ _ _ rfl] at h <;> exact Bool.false_ne_true h
    unfold validate_operation
    rw [hq]
    by_cases hdrop : hasSubstr (upStr q) "DROP" = true
    · simp [hne, hdrop]
    · by_cases htr : hasSubstr (upStr q) "TRUNCATE" = true
      · simp [hne, hdrop, htr]
      · rcases hud with h | h
        · by_cases hdel : hasSubstr (upStr q) "DELETE" = true
          · simp [hne, hdrop, htr, hdel, hw]
          · simp [hne, hdrop, htr, hdel, h, hw]
        · simp [hne, hdrop, htr, h, hw]
  · intro hdrop htr hnu
    unfold validate_operation
    rw [hq]
    by_cases hne : q = ""
    · simp [hne]
    · by_cases hdel : hasSubstr (upStr q) "DELETE" = true
      · have hw : hasSubstr (upStr q) "WHERE" = true := by
          by_contra hw
          exact hnu ⟨Or.inr hdel, by simpa using hw⟩
        by_cases hup : hasSubstr (upStr q) "UPDATE" = true
        · simp [hne, hdrop, htr, hdel, hup, hw]
        · simp [hne, hdrop, htr, hdel, hup, hw]
      · by_cases hup : hasSubstr (upStr q) "UPDATE" = true
        · have hw : hasSubstr (upStr q) "WHERE" = true := by
            by_contra hw
            exact hnu ⟨Or.inl hup, by simpa using hw⟩
          simp [hne, hdrop, htr, hdel, hup, hw]
        · simp [hne, hdrop, htr, hdel, hup]

/-- Witness for `c3_validator_unqualified`: an unqualified DELETE is
rejected and a plain SELECT passes through unchanged. -/
theorem c3_validator_unqualified_witness :
    (validate_operation { initState ⟨"UPDATE", false⟩ with
        sql_query := some "DELETE FROM patients" }).error.isSome ∧
    validate_operation { initState ⟨"QUERY", false⟩ with
        sql_query := some "SELECT * FROM billing WHERE status = \x27Pending\x27" } =
      { initState ⟨"QUERY", false⟩ with
        sql_query := some "SELECT * FROM billing WHERE status = \x27Pending\x27" } :=
  ⟨(c3_validator_unqualified _ "DELETE FROM patients" rfl).1 (Or.inr (by decide)) (by decide),
    (c3_validator_unqualified _ "SELECT * FROM billing WHERE status = \x27Pending\x27" rfl).2
      (by decide) (by decide) (by decide)⟩

/-- C1: when the post-processed generated statement contains DROP or
TRUNCATE (case-insensitively), the validator sets an error, the Execute
stage is not in the executed trace, the audit log is unchanged, and the
store state is untouched. -/
theorem c1_destructive_rejected {σ : Type} (o : Oracles σ) (msg : String) (db : σ)
    (audit0 : List AuditRecord) (ar : AnalyzeOut)
    (han : analyze_request o.analyzeOut msg = .ok ar)
    (hc : ar.intent ≠ "CHAT") (hb : ar.intent ≠ "BULK_INSERT")
    (hd : hasSubstr (upStr (postprocessSql o.genRaw)) "DROP" = true ∨
        hasSubstr (upStr (postprocessSql o.genRaw)) "TRUNCATE" = true) :
    runWorkflow o msg db audit0 = .ok (runFrom o db audit0 ar) ∧
    (runFrom o db audit0 ar).state.error.isSome ∧
    Stage.executeStage ∉ (runFrom o db audit0 ar).trace ∧
    (runFrom o db audit0 ar).audit = audit0 ∧
    (runFrom o db audit0 ar).db = db := by
  have hn := analyze_ok_needs _ _ _ han
  have hrun : runWorkflow o msg db audit0 = .ok (runFrom o db audit0 ar) := by
    simp [runWorkflow, han]
  have hsq : (generate_smart_sql o.genRaw (initState ar)).sql_query =
      some (postprocessSql o.genRaw) := by
    simp [generate_smart_sql, initState, hc]
  have herr : (validate_operation (generate_smart_sql o.genRaw (initState ar))).error.isSome :=
    validate_reject_destructive _ _ hsq hd
  have hroute : route_after_validation
      (validate_operation (generate_smart_sql o.genRaw (initState ar))) = "respond" := by
    unfold route_after_validation
    simp [herr]
  refine ⟨hrun, ?_, ?_, ?_, ?_⟩ <;>
    rw [runFrom_sql o db audit0 ar hn hc hb] <;>
    simp [hroute, herr]

/-- Witness for `c1_destructive_rejected`: the Scenario-B request
"drop the patients table" with a DROP statement from the generator. -/
theorem c1_destructive_rejected_witness :
    (runWorkflow (σ := Unit)
        ⟨.jsonObject (some "UPDATE"), "DROP TABLE patients", "", fun db _ => (.ok 1 1 [], db), ""⟩
        "drop the patients table" () [] =
      .ok (runFrom ⟨.jsonObject (some "UPDATE"), "DROP TABLE patients", "",
            fun db _ => (.ok 1 1 [], db), ""⟩ () [] ⟨"UPDATE", false⟩)) ∧
    (runFrom (σ := Unit) ⟨.jsonObject (some "UPDATE"), "DROP TABLE patients", "",
        fun db _ => (.ok 1 1 [], db), ""⟩ () [] ⟨"UPDATE", false⟩).state.error.isSome ∧
    Stage.executeStage ∉ (runFrom (σ := Unit) ⟨.jsonObject (some "UPDATE"), "DROP TABLE patients", "",
        fun db _ => (.ok 1 1 [], db), ""⟩ () [] ⟨"UPDATE", false⟩).trace ∧
    (runFrom (σ := Unit) ⟨.jsonObject (some "UPDATE"), "DROP TABLE patients", "",
        fun db _ => (.ok 1 1 [], db), ""⟩ () [] ⟨"UPDATE", false⟩).audit = [] ∧
    (runFrom (σ := Unit) ⟨.jsonObject (some "UPDATE"), "DROP TABLE patients", "",
        fun db _ => (.ok 1 1 [], db), ""⟩ () [] ⟨"UPDATE", false⟩).db = () := by
  have h := c1_destructive_rejected (σ := Unit)
    ⟨.jsonObject (some "UPDATE"), "DROP TABLE patients", "", fun db _ => (.ok 1 1 [], db), ""⟩
    "drop the patients table" () [] ⟨"UPDATE", false⟩ rfl (by decide) (by decide)
    (Or.inl (by decide))
  exact h

/-- Oracle set for the empty-generation scenario: the generator completion
is a bare code fence, whose post-processing yields the empty string. -/
def emptyGenOracles : Oracles Unit :=
  ⟨.jsonObject (some "UPDATE"), "```sql\n```", "", fun db _ => (.ok 1 1 [], db), ""⟩

/-- The state after `analyze` and a generation that produced the empty
string (proof abbreviation). -/
def genEmptyState (ar : AnalyzeOut) : AgentState :=
  { intent := some ar.intent, sql_query := some "", execution_result := none, error := none,
    table_changed := none, needs_clarification := ar.needs_clarification,
    clarification_question := "" }

/-- C4 counterexample: with an empty post-processed statement the validator
sets no error, the Execute stage still runs (as an early-return no-op), and
the user receives the generic plain-text payload, not an error payload. -/
theorem c4_empty_statement_cex :
    postprocessSql "```sql\n```" = "" ∧
    (runWorkflow emptyGenOracles "remove everything" () []).toOption.map (·.state.error) =
      some none ∧
    (runWorkflow emptyGenOracles "remove everything" () []).toOption.map (·.payload) =
      some (.textReply doneMsg) ∧
    (runWorkflow emptyGenOracles "remove everything" () []).toOption.map (·.trace) =
      some [.analyze, .generateSql, .validate, .executeStage, .emitStage, .respondStage] :=
  ⟨by decide, by rfl, by rfl, by rfl⟩

/-- C4 (amended): an empty post-processed statement is passed through by
the validator with no error, routed to Execute, which early-returns without
touching the store or the audit log; the workflow completes without raising
and replies with the generic plain-text payload. -/
theorem c4_empty_statement_amended {σ : Type} (o : Oracles σ) (msg : String) (db : σ)
    (audit0 : List AuditRecord) (ar : AnalyzeOut)
    (han : analyze_request o.analyzeOut msg = .ok ar)
    (hc : ar.intent ≠ "CHAT") (hb : ar.intent ≠ "BULK_INSERT")
    (he : postprocessSql o.genRaw = "") :
    runWorkflow o msg db audit0 = .ok (runFrom o db audit0 ar) ∧
    (runFrom o db audit0 ar).state.error = none ∧
    (runFrom o db audit0 ar).audit = audit0 ∧
    (runFrom o db audit0 ar).broadcasts = [] ∧
    (runFrom o db audit0 ar).db = db ∧
    Stage.executeStage ∈ (runFrom o db audit0 ar).trace ∧
    (runFrom o db audit0 ar).payload = .textReply doneMsg := by
  have hn := analyze_ok_needs _ _ _ han
  have hrun : runWorkflow o msg db audit0 = .ok (runFrom o db audit0 ar) := by
    simp [runWorkflow, han]
  have hst1 : generate_smart_sql o.genRaw (initState ar) = genEmptyState ar := by
    simp [generate_smart_sql, initState, genEmptyState, hc, he]
  have hst2 : validate_operation (genEmptyState ar) = genEmptyState ar := by
    unfold validate_operation genEmptyState
    simp
  have hroute : route_after_validation (genEmptyState ar) = "execute_sql" := by
    unfold route_after_validation genEmptyState
    simp
  have hexec : execute_sql o.engine db audit0 (genEmptyState ar) =
      ⟨genEmptyState ar, audit0, db, true⟩ := by
    unfold execute_sql genEmptyState
    simp
  have hresp : generate_response o.chatReply (genEmptyState ar) = .textReply doneMsg := by
    unfold generate_response respondResult genEmptyState
    simp [hn, hc]
  have hfrom : runFrom o db audit0 ar =
      ⟨genEmptyState ar, audit0, db, [],
        [.analyze, .generateSql, .validate, .executeStage, .emitStage, .respondStage],
        .textReply doneMsg, none⟩ := by
    rw [runFrom_sql o db audit0 ar hn hc hb]
    simp only [hst1, hst2, hroute, hexec, hresp]
    rw [if_neg (by decide : ¬(("execute_sql" : String) = "respond"))]
    simp [emit_event, genEmptyState]
  refine ⟨hrun, ?_, ?_, ?_, ?_, ?_, ?_⟩ <;> rw [hfrom] <;> simp [genEmptyState]

/-- Witness for `c4_empty_statement_amended` at the concrete oracle set. -/
theorem c4_empty_statement_amended_witness :
    (runFrom emptyGenOracles () [] ⟨"UPDATE", false⟩).state.error = none ∧
    (runFrom emptyGenOracles () [] ⟨"UPDATE", false⟩).payload = .textReply doneMsg := by
  have h := c4_empty_statement_amended emptyGenOracles "remove everything" () []
    ⟨"UPDATE", false⟩ rfl (by decide) (by decide) (by decide)
  exact ⟨h.2.1, h.2.2.2.2.2.2⟩

/-- C5 counterexample: a decoded JSON object with no `intent` field yields
the default `"QUERY"` — not the keyword-rule result, which on a message
without lookup verbs is `"UPDATE"` — and a decoded non-object makes the
analyzer raise instead of never raising. -/
theorem c5_analyzer_cex :
    analyze_request (.jsonObject none) "hello there" = .ok ⟨"QUERY", false⟩ ∧
    fallbackIntent "hello there" = "UPDATE" ∧
    ("QUERY" : String) ≠ "UPDATE" ∧
    analyze_request .nonObject "hello there" = .error () :=
  ⟨rfl, by decide, by decide, rfl⟩

/-- C5 (amended): only a JSON-decode failure triggers the keyword fallback;
a decoded object is taken verbatim — a missing `intent` field defaults to
QUERY with no keyword rule and no membership check on the field value — and
`needs_clarification` is false on every non-raising outcome, while decoded
non-object JSON raises. The fallback itself only ever yields QUERY or
UPDATE. -/
theorem c5_analyzer_amended (msg fieldValue : String) :
    analyze_request .decodeErr msg = .ok ⟨fallbackIntent msg, false⟩ ∧
    analyze_request (.jsonObject none) msg = .ok ⟨"QUERY", false⟩ ∧
    analyze_request (.jsonObject (some fieldValue)) msg = .ok ⟨fieldValue, false⟩ ∧
    analyze_request .nonObject msg = .error () ∧
    (fallbackIntent msg = "QUERY" ∨ fallbackIntent msg = "UPDATE") := by
  refine ⟨rfl, rfl, rfl, rfl, ?_⟩
  unfold fallbackIntent
  split_ifs <;> simp

/-- C6: starting within the bound, the history update keeps at most 20
turns, keeps exactly `min (|h| + 2) 20` of them, and the kept turns are a
suffix of the appended history — i.e., the most recent ones in insertion
order, evicting only the oldest. -/
theorem c6_history_bound (h : List Turn) (u a : Turn) (hb : h.length ≤ 20) :
    (chatAppend h u a).length ≤ 20 ∧
    (chatAppend h u a).length = min (h.length + 2) 20 ∧
    chatAppend h u a <:+ h ++ [u, a] := by
  unfold chatAppend
  simp only
  split_ifs with hc
  · have hl : (h ++ [u, a]).length = h.length + 2 := by simp
    refine ⟨?_, ?_, List.drop_suffix _ _⟩ <;> rw [List.length_drop] <;> omega
  · have hl : (h ++ [u, a]).length = h.length + 2 := by simp
    refine ⟨?_, ?_, List.suffix_refl _⟩ <;> omega

/-- Witness for `c6_history_bound`: a full 20-turn history receives one more
exchange and stays at exactly 20 turns. -/
theorem c6_history_bound_witness :
    (chatAppend (List.replicate 20 ⟨"user", "m"⟩) ⟨"user", "u"⟩ ⟨"assistant", "a"⟩).length ≤ 20 ∧
    (chatAppend (List.replicate 20 ⟨"user", "m"⟩) ⟨"user", "u"⟩ ⟨"assistant", "a"⟩).length =
      min ((List.replicate (α := Turn) 20 ⟨"user", "m"⟩).length + 2) 20 ∧
    chatAppend (List.replicate 20 ⟨"user", "m"⟩) ⟨"user", "u"⟩ ⟨"assistant", "a"⟩ <:+
      List.replicate 20 ⟨"user", "m"⟩ ++ [⟨"user", "u"⟩, ⟨"assistant", "a"⟩] :=
  c6_history_bound (List.replicate 20 ⟨"user", "m"⟩) ⟨"user", "u"⟩ ⟨"assistant", "a"⟩
    (by decide)

/-- The executor closes its connection on every exit path. -/
theorem execute_sql_releases {σ : Type} (engine : σ → String → EngineOutcome × σ) (db : σ)
    (audit : List AuditRecord) (st : AgentState) :
    (execute_sql engine db audit st).connReleased = true := by
  unfold execute_sql
  cases h : st.sql_query
  · rfl
  · rename_i q
    by_cases he : q = ""
    · simp [he]
    · rcases hE : engine db q with ⟨out, db2⟩
      cases out
      · simp [he, hE]
        split_ifs <;> rfl
      · simp [he, hE]

/-- C9: an engine-level failure is caught and mapped through the substring
chain — UNIQUE, FOREIGN KEY, unknown column, and multi-statement errors
each get their fixed user-safe message, pairwise distinct, and any other
message is returned as the error payload verbatim — the audit log is not
written on the exception path, and the connection is released on every exit
path, including both the exception path and the success path. -/
theorem c9_engine_errors_mapped {σ : Type} (engine : σ → String → EngineOutcome × σ)
    (db db2 : σ) (audit : List AuditRecord) (st : AgentState) (q emsg : String)
    (hq : st.sql_query = some q) (hne : q ≠ "")
    (hr : engine db q = (.raise emsg, db2)) :
    (execute_sql engine db audit st).state.error = some (mapExecError emsg) ∧
    (execute_sql engine db audit st).audit = audit ∧
    (execute_sql engine db audit st).db = db2 ∧
    (execute_sql engine db audit st).connReleased = true ∧
    (∀ (engine2 : σ → String → EngineOutcome × σ) (db0 : σ) (audit2 : List AuditRecord)
        (st2 : AgentState), (execute_sql engine2 db0 audit2 st2).connReleased = true) ∧
    (∀ m, hasSubstr m "UNIQUE constraint" = true → mapExecError m = msgUnique) ∧
    (∀ m, hasSubstr m "UNIQUE constraint" = false →
      hasSubstr m "FOREIGN KEY constraint" = true → mapExecError m = msgFk) ∧
    (∀ m, hasSubstr m "UNIQUE constraint" = false →
      hasSubstr m "FOREIGN KEY constraint" = false → hasSubstr m "no such column" = true →
      mapExecError m = msgColumn) ∧
    (∀ m, hasSubstr m "UNIQUE constraint" = false →
      hasSubstr m "FOREIGN KEY constraint" = false → hasSubstr m "no such column" = false →
      hasSubstr (lowStr m) "only execute one statement" = true → mapExecError m = msgMulti) ∧
    (∀ m, hasSubstr m "UNIQUE constraint" = false →
      hasSubstr m "FOREIGN KEY constraint" = false → hasSubstr m "no such column" = false →
      hasSubstr (lowStr m) "only execute one statement" = false → mapExecError m = m) ∧
    (msgUnique ≠ msgFk ∧ msgUnique ≠ msgColumn ∧ msgUnique ≠ msgMulti ∧
      msgFk ≠ msgColumn ∧ msgFk ≠ msgMulti ∧ msgColumn ≠ msgMulti) := by
  have hexec : execute_sql engine db audit st =
      ⟨{ st with error := some (mapExecError emsg) }, audit, db2, true⟩ := by
    unfold execute_sql
    rw [hq]
    simp [hne, hr]
  refine ⟨by rw [hexec], by rw [hexec], by rw [hexec], by rw [hexec],
    execute_sql_releases, ?_, ?_, ?_, ?_, ?_, by decide⟩
  all_goals intro m
  · intro h1
    unfold mapExecError
    simp [h1]
  · intro h1 h2
    unfold mapExecError
    simp [h1, h2]
  · intro h1 h2 h3
    unfold mapExecError
    simp [h1, h2, h3]
  · intro h1 h2 h3 h4
    unfold mapExecError
    simp [h1, h2, h3, h4]
  · intro h1 h2 h3 h4
    unfold mapExecError
    simp [h1, h2, h3, h4]

/-- Witness for `c9_engine_errors_mapped`: a raised UNIQUE-constraint
failure on a concrete INSERT. -/
theorem c9_engine_errors_mapped_witness :
    (execute_sql (σ := Unit) (fun db _ => (.raise "UNIQUE constraint failed: patients.name", db))
        () [] { initState ⟨"UPDATE", false⟩ with
          sql_query := some "INSERT INTO patients (name) VALUES (\x27Ann\x27)" }).state.error =
      some (mapExecError "UNIQUE constraint failed: patients.name") ∧
    (execute_sql (σ := Unit) (fun db _ => (.raise "UNIQUE constraint failed: patients.name", db))
        () [] { initState ⟨"UPDATE", false⟩ with
          sql_query := some "INSERT INTO patients (name) VALUES (\x27Ann\x27)" }).audit = [] := by
  have h := c9_engine_errors_mapped (σ := Unit)
    (fun db _ => (.raise "UNIQUE constraint failed: patients.name", db)) () () []
    { initState ⟨"UPDATE", false⟩ with
      sql_query := some "INSERT INTO patients (name) VALUES (\x27Ann\x27)" }
    "INSERT INTO patients (name) VALUES (\x27Ann\x27)"
    "UNIQUE constraint failed: patients.name" rfl (by decide) rfl
  exact ⟨h.1, h.2.1⟩

/-- Membership in the Python set `tables_affected` after an `add`. -/
theorem mem_addTable (t : String) (opt : Option String) (ts : List String) :
    t ∈ addTable opt ts ↔ (opt = some t ∨ t ∈ ts) := by
  cases opt with
  | none => simp [addTable]
  | some t2 =>
    by_cases hm : t2 ∈ ts
    · simp only [addTable, hm, if_pos]
      constructor
      · exact fun h => Or.inr h
      · rintro (h | h)
        · cases h; exact hm
        · exact h
    · simp only [addTable, hm, if_neg, not_false_iff, List.mem_cons]
      constructor
      · rintro (h | h)
        · exact Or.inl (by rw [h])
        · exact Or.inr h
      · rintro (h | h)
        · cases h; exact Or.inl rfl
        · exact Or.inr h

/-- Every executable line of the bulk loop is handed to the engine, in
order, whatever the outcomes of the other lines are: the executed
statements are exactly the stripped lines that pass the INSERT-leading-token
test, with a trailing semicolon removed. -/
theorem bulkRun_executed {σ : Type} (engine : σ → String → EngineOutcome × σ)
    (lines : List String) : ∀ (db : σ),
    ((bulkRun engine db lines).1.executedOk).map (fun p => p.1) =
      (((lines.map trimStr).filter bulkExecutable).map stripSemi) := by
  induction lines with
  | nil => intro db; rfl
  | cons l rest ih =>
    intro db
    unfold bulkRun
    by_cases hx : bulkExecutable (trimStr l) = true
    · rcases hE : engine db (stripSemi (trimStr l)) with ⟨out, db2⟩
      have hr := ih db2
      rcases hR : bulkRun engine db2 rest with ⟨r, db3⟩
      rw [hR] at hr
      cases out <;> simp [hx, hE, hR, hr]
    · simp [hx, ih db]

/-- The success and error counters of the bulk loop count exactly the
succeeded and failed executed statements. -/
theorem bulkRun_counts {σ : Type} (engine : σ → String → EngineOutcome × σ)
    (lines : List String) : ∀ (db : σ),
    (bulkRun engine db lines).1.successCount =
      ((bulkRun engine db lines).1.executedOk.filter (fun p => p.2)).length ∧
    (bulkRun engine db lines).1.errors.length =
      ((bulkRun engine db lines).1.executedOk.filter (fun p => !p.2)).length := by
  induction lines with
  | nil => intro db; exact ⟨rfl, rfl⟩
  | cons l rest ih =>
    intro db
    unfold bulkRun
    by_cases hx : bulkExecutable (trimStr l) = true
    · rcases hE : engine db (stripSemi (trimStr l)) with ⟨out, db2⟩
      have hr := ih db2
      rcases hR : bulkRun engine db2 rest with ⟨r, db3⟩
      rw [hR] at hr
      have hr1 : r.successCount = (List.filter (fun p => p.2) r.executedOk).length := hr.1
      have hr2 : r.errors.length = (List.filter (fun p => !p.2) r.executedOk).length := hr.2
      cases out <;> simp [hx, hE, hR, hr1, hr2]
    · simp [hx, ih db]

/-- A table is in the bulk loop's affected set exactly when some
successfully executed statement mentions it (by the keyword containment of
`detectTable`). -/
theorem bulkRun_tables {σ : Type} (engine : σ → String → EngineOutcome × σ)
    (lines : List String) : ∀ (db : σ) (t : String),
    (t ∈ (bulkRun engine db lines).1.tables ↔
      ∃ s, (s, true) ∈ (bulkRun engine db lines).1.executedOk ∧ detectTable s = some t) := by
  induction lines with
  | nil => intro db t; simp [bulkRun]
  | cons l rest ih =>
    intro db t
    unfold bulkRun
    by_cases hx : bulkExecutable (trimStr l) = true
    · rcases hE : engine db (stripSemi (trimStr l)) with ⟨out, db2⟩
      have hr := ih db2 t
      rcases hR : bulkRun engine db2 rest with ⟨r, db3⟩
      rw [hR] at hr
      cases out with
      | ok rc lid rows =>
        simp only [hx, hE, hR, if_pos]
        rw [mem_addTable]
        simp only [List.mem_cons]
        constructor
        · rintro (h | h)
          · exact ⟨stripSemi (trimStr l), Or.inl rfl, h⟩
          · obtain ⟨s, hs, hd⟩ := hr.mp h
            exact ⟨s, Or.inr hs, hd⟩
        · rintro ⟨s, hs | hs, hd⟩
          · rw [Prod.mk.injEq] at hs
            exact Or.inl (by rw [← hs.1]; exact hd)
          · exact Or.inr (hr.mpr ⟨s, hs, hd⟩)
      | raise m =>
        simp only [hx, hE, hR, if_pos]
        rw [hr]
        constructor
        · rintro ⟨s, hs, hd⟩
          exact ⟨s, List.mem_cons_of_mem _ hs, hd⟩
        · rintro ⟨s, hs, hd⟩
          rcases List.mem_cons.mp hs with h | h
          · rw [Prod.mk.injEq] at h
            exact absurd h.2 (by decide)
          · exact ⟨s, h, hd⟩
    · simp only [hx, if_neg, Bool.not_eq_true]
      exact ih db t

/-- The bulk node reports an error outcome exactly when no statement
succeeded, and it never touches `sql_query` or the audit-relevant fields. -/
theorem generate_bulk_insert_error {σ : Type} (engine : σ → String → EngineOutcome × σ)
    (db : σ) (raw : String) (st : AgentState) (hst : st.error = none) :
    ((generate_bulk_insert engine db raw st).1.error.isSome ↔
      (bulkRun engine db (splitLines (cleanLLM raw))).1.successCount = 0) ∧
    (generate_bulk_insert engine db raw st).1.sql_query = st.sql_query ∧
    (generate_bulk_insert engine db raw st).2.1 =
      (bulkRun engine db (splitLines (cleanLLM raw))).1 := by
  unfold generate_bulk_insert
  rcases hR : bulkRun engine db (splitLines (cleanLLM raw)) with ⟨r, db2⟩
  by_cases hs : r.successCount > 0
  · simp [hR, hs, hst]
    omega
  · simp [hR, hs, hst]
    omega

/-- C8: in the bulk path every INSERT-shaped line is executed regardless of
other lines failing (the executed list is determined purely by line syntax,
so a failing line aborts nothing), the success and failure counters count
exactly the succeeded and failed executed statements, the affected-table
set holds exactly the tables of succeeded statements, and the single
combined outcome is an error exactly when zero statements succeeded. -/
theorem c8_bulk_partial_success {σ : Type} (engine : σ → String → EngineOutcome × σ)
    (db : σ) (raw : String) (st : AgentState) (hst : st.error = none) :
    ((bulkRun engine db (splitLines (cleanLLM raw))).1.executedOk).map (fun p => p.1) =
      ((((splitLines (cleanLLM raw)).map trimStr).filter bulkExecutable).map stripSemi) ∧
    (bulkRun engine db (splitLines (cleanLLM raw))).1.successCount =
      ((bulkRun engine db (splitLines (cleanLLM raw))).1.executedOk.filter
        (fun p => p.2)).length ∧
    (bulkRun engine db (splitLines (cleanLLM raw))).1.errors.length =
      ((bulkRun engine db (splitLines (cleanLLM raw))).1.executedOk.filter
        (fun p => !p.2)).length ∧
    (∀ t, t ∈ (bulkRun engine db (splitLines (cleanLLM raw))).1.tables ↔
      ∃ s, (s, true) ∈ (bulkRun engine db (splitLines (cleanLLM raw))).1.executedOk ∧
        detectTable s = some t) ∧
    ((generate_bulk_insert engine db raw st).1.error.isSome ↔
      (bulkRun engine db (splitLines (cleanLLM raw))).1.successCount = 0) :=
  ⟨bulkRun_executed engine _ db, (bulkRun_counts engine _ db).1,
    (bulkRun_counts engine _ db).2, fun t => bulkRun_tables engine _ db t,
    (generate_bulk_insert_error engine db raw st hst).1⟩

/-- A three-line bulk completion: two INSERT lines around a DELETE line
(which must be skipped), the second INSERT referencing a missing patient. -/
def bulk3Raw : String :=
  "INSERT INTO patients (name) VALUES (\x27Ann\x27);\nDELETE FROM patients\nINSERT INTO visits (patient_id) VALUES (99);"

/-- An engine that fails exactly the statement mentioning `visits` with a
FOREIGN-KEY violation and accepts everything else. -/
def failSecondEngine : Unit → String → EngineOutcome × Unit := fun db s =>
  if hasSubstr s "visits" then (.raise "FOREIGN KEY constraint failed", db)
  else (.ok 1 1 [], db)

/-- Witness for `c8_bulk_partial_success`: two INSERT lines around a failing
one — the failure aborts nothing and the combined outcome is a success. -/
theorem c8_bulk_partial_success_witness :
    ((bulkRun failSecondEngine () (splitLines (cleanLLM bulk3Raw))).1.executedOk).map
        (fun p => p.1) =
      ((((splitLines (cleanLLM bulk3Raw)).map trimStr).filter bulkExecutable).map stripSemi) ∧
    ((generate_bulk_insert failSecondEngine () bulk3Raw
        (initState ⟨"BULK_INSERT", false⟩)).1.error.isSome ↔
      (bulkRun failSecondEngine () (splitLines (cleanLLM bulk3Raw))).1.successCount = 0) := by
  have h := c8_bulk_partial_success failSecondEngine () bulk3Raw
    (initState ⟨"BULK_INSERT", false⟩) rfl
  exact ⟨h.1, h.2.2.2.2⟩

/-- Oracle set for the C2 counterexample: a BULK_INSERT request whose model
output is one INSERT line that the engine commits successfully. -/
def bulkAuditOracles : Oracles Unit :=
  ⟨.jsonObject (some "BULK_INSERT"), "",
    "INSERT INTO patients (name) VALUES (\x27Ann\x27);",
    fun db _ => (.ok 1 1 [], db), ""⟩

/-- C2 counterexample: on the BulkInsert path one mutating statement is
executed and committed successfully (the reply reports a created record),
yet the audit log stays empty — no AuditRecord is written. -/
theorem c2_bulk_no_audit_cex :
    (runWorkflow bulkAuditOracles "add a patient" () []).toOption.map
        (·.bulk.map (·.executedOk)) =
      some (some [("INSERT INTO patients (name) VALUES (\x27Ann\x27)", true)]) ∧
    (runWorkflow bulkAuditOracles "add a patient" () []).toOption.map (·.payload) =
      some (.writeSuccess "created" "Successfully created 1 new record(s) in patients.") ∧
    (runWorkflow bulkAuditOracles "add a patient" () []).toOption.map (·.audit) = some [] :=
  ⟨by rfl, by rfl, by rfl⟩

/-- C2 (amended): on the single-statement Execute stage, every successfully
committed mutating statement appends exactly one AuditRecord — operation
label, raw statement, actor — to the end of the log, so existing records
are never mutated or deleted; a successfully executed read appends nothing;
but the BulkInsert path appends no AuditRecord at all, even for
successfully committed inserts. -/
theorem c2_audit_exactly_once {σ : Type} (engine : σ → String → EngineOutcome × σ)
    (db db2 : σ) (audit : List AuditRecord) (st : AgentState) (q : String)
    (rc lid : Nat) (rows : List RowMap) (o : Oracles σ) (msg : String) (ar : AnalyzeOut)
    (hq : st.sql_query = some q) (hne : q ≠ "")
    (hok : engine db q = (.ok rc lid rows, db2))
    (han : analyze_request o.analyzeOut msg = .ok ar)
    (hbi : ar.intent = "BULK_INSERT") :
    (isWriteQuery q = true →
      (execute_sql engine db audit st).audit =
        audit ++ [⟨"SQL Execution", q, "chatbot"⟩]) ∧
    (isWriteQuery q = false → (execute_sql engine db audit st).audit = audit) ∧
    (runFrom o db audit ar).audit = audit := by
  have hn := analyze_ok_needs _ _ _ han
  refine ⟨?_, ?_, ?_⟩
  · intro hw
    unfold execute_sql
    rw [hq]
    simp [hne, hok, hw]
  · intro hw
    unfold execute_sql
    rw [hq]
    simp [hne, hok, hw]
  · rw [runFrom_bulk o db audit ar hn hbi]

/-- Witness for `c2_audit_exactly_once`: a committed UPDATE appends its one
audit record; a committed SELECT appends none; the bulk path leaves the
audit log unchanged. -/
theorem c2_audit_exactly_once_witness :
    ((isWriteQuery "UPDATE billing SET status = \x27Paid\x27 WHERE id = 2" = true →
      (execute_sql (σ := Unit) (fun db _ => (.ok 1 1 [], db)) () []
          { initState ⟨"UPDATE", false⟩ with
            sql_query := some "UPDATE billing SET status = \x27Paid\x27 WHERE id = 2" }).audit =
        [] ++ [⟨"SQL Execution", "UPDATE billing SET status = \x27Paid\x27 WHERE id = 2",
          "chatbot"⟩]) ∧
    (isWriteQuery "UPDATE billing SET status = \x27Paid\x27 WHERE id = 2" = false →
      (execute_sql (σ := Unit) (fun db _ => (.ok 1 1 [], db)) () []
          { initState ⟨"UPDATE", false⟩ with
            sql_query := some "UPDATE billing SET status = \x27Paid\x27 WHERE id = 2" }).audit =
        []) ∧
    (runFrom bulkAuditOracles () [] ⟨"BULK_INSERT", false⟩).audit = []) ∧
    isWriteQuery "UPDATE billing SET status = \x27Paid\x27 WHERE id = 2" = true :=
  ⟨c2_audit_exactly_once (σ := Unit) (fun db _ => (.ok 1 1 [], db)) () () []
      { initState ⟨"UPDATE", false⟩ with
        sql_query := some "UPDATE billing SET status = \x27Paid\x27 WHERE id = 2" }
      "UPDATE billing SET status = \x27Paid\x27 WHERE id = 2" 1 1 [] bulkAuditOracles
      "add a patient" ⟨"BULK_INSERT", false⟩ rfl (by decide) rfl rfl rfl,
    by decide⟩

/-- C10: in the bulk loop a line reaches the engine exactly when its
stripped text is nonempty and its uppercase form starts with INSERT (with a
trailing semicolon removed); every other line is skipped; and on the
BULK_INSERT route the workflow never runs the Validate stage and never
stores a statement in `sql_query`, so no bulk statement passes through the
Statement Validator. -/
theorem c10_bulk_validator_bypass {σ : Type} (o : Oracles σ) (msg : String) (db : σ)
    (audit0 : List AuditRecord) (ar : AnalyzeOut)
    (han : analyze_request o.analyzeOut msg = .ok ar)
    (hbi : ar.intent = "BULK_INSERT") :
    (∀ (engine : σ → String → EngineOutcome × σ) (db0 : σ) (raw : String),
      ((bulkRun engine db0 (splitLines (cleanLLM raw))).1.executedOk).map (fun p => p.1) =
        ((((splitLines (cleanLLM raw)).map trimStr).filter bulkExecutable).map stripSemi)) ∧
    (∀ l : String, bulkExecutable l = ((l != "") && strStarts (upStr l) "INSERT")) ∧
    runWorkflow o msg db audit0 = .ok (runFrom o db audit0 ar) ∧
    (runFrom o db audit0 ar).trace = [.analyze, .bulkStage, .emitStage, .respondStage] ∧
    Stage.validate ∉ (runFrom o db audit0 ar).trace ∧
    (runFrom o db audit0 ar).state.sql_query = none := by
  have hn := analyze_ok_needs _ _ _ han
  have hb := runFrom_bulk o db audit0 ar hn hbi
  have hsq : (generate_bulk_insert o.engine db o.bulkRaw (initState ar)).1.sql_query =
      (initState ar).sql_query :=
    (generate_bulk_insert_error o.engine db o.bulkRaw (initState ar) rfl).2.1
  refine ⟨fun engine db0 raw => bulkRun_executed engine _ db0, fun l => rfl,
    by simp [runWorkflow, han], ?_, ?_, ?_⟩
  · rw [hb]
  · rw [hb]
    show Stage.validate ∉
      ([Stage.analyze, Stage.bulkStage, Stage.emitStage, Stage.respondStage] : List Stage)
    decide
  · rw [hb]
    simpa [initState] using hsq

/-- Witness for `c10_bulk_validator_bypass`: the concrete bulk run with a
DELETE line between two INSERT lines never consults the validator. -/
theorem c10_bulk_validator_bypass_witness :
    Stage.validate ∉ (runFrom
        (⟨.jsonObject (some "BULK_INSERT"), "", bulk3Raw, failSecondEngine, ""⟩ : Oracles Unit)
        () [] ⟨"BULK_INSERT", false⟩).trace ∧
    (runFrom (⟨.jsonObject (some "BULK_INSERT"), "", bulk3Raw, failSecondEngine, ""⟩ : Oracles Unit)
        () [] ⟨"BULK_INSERT", false⟩).state.sql_query = none := by
  have h := c10_bulk_validator_bypass
    (⟨.jsonObject (some "BULK_INSERT"), "", bulk3Raw, failSecondEngine, ""⟩ : Oracles Unit)
    "add sample data" () [] ⟨"BULK_INSERT", false⟩ rfl rfl
  exact ⟨h.2.2.2.2.1, h.2.2.2.2.2⟩

/-- The generator node does not touch `table_changed`. -/
theorem generate_keeps_table (raw : String) (st : AgentState) :
    (generate_smart_sql raw st).table_changed = st.table_changed := by
  unfold generate_smart_sql
  split <;> rfl

/-- When validation rejects, the sql path goes straight to Respond. -/
theorem runFrom_sql_reject {σ : Type} (o : Oracles σ) (db : σ) (audit0 : List AuditRecord)
    (ar : AnalyzeOut) (hn : ar.needs_clarification = false)
    (hc : ar.intent ≠ "CHAT") (hb : ar.intent ≠ "BULK_INSERT")
    (herr : (validate_operation (generate_smart_sql o.genRaw (initState ar))).error.isSome) :
    runFrom o db audit0 ar =
      ⟨validate_operation (generate_smart_sql o.genRaw (initState ar)), audit0, db, [],
        [.analyze, .generateSql, .validate, .respondStage],
        generate_response o.chatReply
          (validate_operation (generate_smart_sql o.genRaw (initState ar))), none⟩ := by
  have hroute : route_after_validation
      (validate_operation (generate_smart_sql o.genRaw (initState ar))) = "respond" := by
    unfold route_after_validation
    simp [herr]
  rw [runFrom_sql o db audit0 ar hn hc hb]
  simp only [hroute, if_true]

/-- When validation accepts, the sql path continues through Execute and
Notify. -/
theorem runFrom_sql_execute {σ : Type} (o : Oracles σ) (db : σ) (audit0 : List AuditRecord)
    (ar : AnalyzeOut) (hn : ar.needs_clarification = false)
    (hc : ar.intent ≠ "CHAT") (hb : ar.intent ≠ "BULK_INSERT")
    (hven : (validate_operation (generate_smart_sql o.genRaw (initState ar))).error = none) :
    runFrom o db audit0 ar =
      ⟨(execute_sql o.engine db audit0
          (validate_operation (generate_smart_sql o.genRaw (initState ar)))).state,
        (execute_sql o.engine db audit0
          (validate_operation (generate_smart_sql o.genRaw (initState ar)))).audit,
        (execute_sql o.engine db audit0
          (validate_operation (generate_smart_sql o.genRaw (initState ar)))).db,
        emit_event (execute_sql o.engine db audit0
          (validate_operation (generate_smart_sql o.genRaw (initState ar)))).state,
        [.analyze, .generateSql, .validate, .executeStage, .emitStage, .respondStage],
        generate_response o.chatReply
          (execute_sql o.engine db audit0
            (validate_operation (generate_smart_sql o.genRaw (initState ar)))).state,
        none⟩ := by
  have hroute : route_after_validation
      (validate_operation (generate_smart_sql o.genRaw (initState ar))) = "execute_sql" := by
    unfold route_after_validation
    simp [hven]
  rw [runFrom_sql o db audit0 ar hn hc hb]
  simp only [hroute]
  rw [if_neg (by decide : ¬(("execute_sql" : String) = "respond"))]

/-- C7: on the single-statement route, a validation error short-circuits to
Respond — the Execute and Notify stages are not in the trace, nothing is
broadcast, the audit log and the store are untouched; an execution error
leaves the error set, broadcasts nothing, and appends no audit record, so
no store write or notification follows the error. -/
theorem c7_error_short_circuit {σ : Type} (o : Oracles σ) (msg : String) (db : σ)
    (audit0 : List AuditRecord) (ar : AnalyzeOut)
    (han : analyze_request o.analyzeOut msg = .ok ar)
    (hc : ar.intent ≠ "CHAT") (hb : ar.intent ≠ "BULK_INSERT") :
    ((validate_operation (generate_smart_sql o.genRaw (initState ar))).error.isSome →
      Stage.executeStage ∉ (runFrom o db audit0 ar).trace ∧
      Stage.emitStage ∉ (runFrom o db audit0 ar).trace ∧
      (runFrom o db audit0 ar).broadcasts = [] ∧
      (runFrom o db audit0 ar).audit = audit0 ∧
      (runFrom o db audit0 ar).db = db) ∧
    (∀ (q emsg : String) (db2 : σ),
      (validate_operation (generate_smart_sql o.genRaw (initState ar))).error = none →
      (generate_smart_sql o.genRaw (initState ar)).sql_query = some q → q ≠ "" →
      o.engine db q = (.raise emsg, db2) →
      (runFrom o db audit0 ar).state.error.isSome ∧
      (runFrom o db audit0 ar).broadcasts = [] ∧
      (runFrom o db audit0 ar).audit = audit0) := by
  have hn := analyze_ok_needs _ _ _ han
  constructor
  · intro herr
    rw [runFrom_sql_reject o db audit0 ar hn hc hb herr]
    refine ⟨?_, ?_, rfl, rfl, rfl⟩ <;>
      · show _ ∉ ([Stage.analyze, Stage.generateSql, Stage.validate, Stage.respondStage] :
          List Stage)
        decide
  · intro q emsg db2 hven hsq hne hr
    have hsq2 : (validate_operation (generate_smart_sql o.genRaw (initState ar))).sql_query =
        some q := by
      rw [(validate_fields _).1, hsq]
    have htc : (validate_operation (generate_smart_sql o.genRaw (initState ar))).table_changed =
        none := by
      rw [(validate_fields _).2.2.2.2.2, generate_keeps_table]
      rfl
    have hexec : execute_sql o.engine db audit0
        (validate_operation (generate_smart_sql o.genRaw (initState ar))) =
        ⟨{ validate_operation (generate_smart_sql o.genRaw (initState ar)) with
            error := some (mapExecError emsg) }, audit0, db2, true⟩ := by
      unfold execute_sql
      rw [hsq2]
      simp [hne, hr]
      exact hsq2.symm
    rw [runFrom_sql_execute o db audit0 ar hn hc hb hven]
    refine ⟨?_, ?_, ?_⟩
    · rw [hexec]
      simp
    · rw [hexec]
      unfold emit_event
      simp [htc]
    · rw [hexec]

/-- Witness for `c7_error_short_circuit`: the DROP request exercises the
validation-error branch, and a raising engine on a valid UPDATE exercises
the execution-error branch. -/
theorem c7_error_short_circuit_witness :
    (Stage.executeStage ∉ (runFrom (σ := Unit)
        ⟨.jsonObject (some "UPDATE"), "DROP TABLE patients", "",
          fun db _ => (.ok 1 1 [], db), ""⟩ () [] ⟨"UPDATE", false⟩).trace ∧
      (runFrom (σ := Unit)
        ⟨.jsonObject (some "UPDATE"), "DROP TABLE patients", "",
          fun db _ => (.ok 1 1 [], db), ""⟩ () [] ⟨"UPDATE", false⟩).broadcasts = []) ∧
    ((runFrom (σ := Unit)
        ⟨.jsonObject (some "UPDATE"), "UPDATE billing SET status = \x27Paid\x27 WHERE id = 99", "",
          fun db _ => (.raise "no such column: status", db), ""⟩
        () [] ⟨"UPDATE", false⟩).state.error.isSome ∧
      (runFrom (σ := Unit)
        ⟨.jsonObject (some "UPDATE"), "UPDATE billing SET status = \x27Paid\x27 WHERE id = 99", "",
          fun db _ => (.raise "no such column: status", db), ""⟩
        () [] ⟨"UPDATE", false⟩).broadcasts = []) := by
  have h1 := (c7_error_short_circuit (σ := Unit)
    ⟨.jsonObject (some "UPDATE"), "DROP TABLE patients", "", fun db _ => (.ok 1 1 [], db), ""⟩
    "drop the patients table" () [] ⟨"UPDATE", false⟩ rfl (by decide) (by decide)).1
    (by decide)
  have h2 := (c7_error_short_circuit (σ := Unit)
    ⟨.jsonObject (some "UPDATE"), "UPDATE billing SET status = \x27Paid\x27 WHERE id = 99", "",
      fun db _ => (.raise "no such column: status", db), ""⟩
    "mark bill 99 paid" () [] ⟨"UPDATE", false⟩ rfl (by decide) (by decide)).2
    "UPDATE billing SET status = \x27Paid\x27 WHERE id = 99" "no such column: status" ()
    (by decide) (by decide) (by decide) rfl
  exact ⟨⟨h1.1, h1.2.2.1⟩, ⟨h2.1, h2.2.1⟩⟩
